import Mathlib

/-!
# Shallow embedding of `src/asr_stat_significance.py`

The repository is a single-file bootstrap engine estimating whether the WER
difference between two ASR models is statistically significant.  This file
embeds the core of that module and proves/refutes the frozen claims about it.

Embedding conventions:

* Python/numpy floats are modelled as exact rationals (`ℚ`).  The one place
  where IEEE special values matter (division by a zero denominator inside
  `wer_change`, which numpy answers with `inf`/`-inf`/`nan` plus a warning,
  not an exception) gets a dedicated model `NPFloat`/`wer_changeF` that
  carries the special values explicitly.
* `np.sqrt` is not given a rational implementation; every definition that
  needs it takes an explicit function `sqrt : ℚ → ℚ` as a parameter, and
  theorems assume only the property they use (`0 ≤ x → 0 ≤ sqrt x`, true of
  the IEEE square root on non-negative input).
* Randomness (`np.random.randint(0, n, size=k)`) is modelled by threading an
  explicit oracle of natural numbers; the draw at position `i` is the
  oracle's value reduced modulo the population size, so quantifying over all
  oracles covers every possible sequence of indices.  `np.random.randint`
  with an empty population raises `ValueError`; failures like this one are
  modelled with `Except String`.
* A parsed row of the input file is the tuple `(edit_wer_a, wer_b, num_words)`
  appended by `process_text_file` (line 47 of the source): model A's raw edit
  count, model B's per-row WER already capped to `[0, 1]`, and the reference
  word count.  The numpy matrix columns `data[:, 0]`, `data[:, 1]`,
  `data[:, 2]` are these three fields.
* Python `dict`s preserve insertion order, so the dataset (block name to rows)
  is an association list.
-/

namespace ASRStat

/-- One parsed row `(edit_wer_a, wer_b, num_words)`:
column 0 is model A's raw edit count, column 1 is model B's capped WER,
column 2 is the reference word count. -/
structure Row where
  edit_wer_a : ℚ
  wer_b : ℚ
  num_words : ℚ
deriving DecidableEq, Inhabited

/-- The dataset handed to `compute_significance`: `self.data_wer`, a dict from
block label to the block's rows, in insertion order. -/
abbrev Dataset := List (String × List Row)

/-- Model of `cap_wer` (source lines 27-31): WER capped at 100%, `0` when
`total_words = 0`. -/
def cap_wer (errors total_words : ℚ) : ℚ :=
  if total_words > 0 then min (errors / total_words) 1 else 0

/-- Model of `wer_change` (source lines 64-65):
`np.sum(data[:, 1] - data[:, 0]) / np.sum(data[:, 2])`, i.e. the sum of the
per-row differences `wer_b - edit_wer_a` divided by the pooled word count.
Exact-rational model; the zero-denominator float behaviour is modelled
separately by `wer_changeF`. -/
def wer_change (data : List Row) : ℚ :=
  ((data.map (fun r => r.wer_b - r.edit_wer_a)).sum) /
    ((data.map (fun r => r.num_words)).sum)

/-- A numpy `float64` value restricted to what `wer_change` can produce from
finite inputs: a finite value (held exactly as a rational) or one of the
special values `inf`, `-inf`, `nan`. -/
inductive NPFloat where
  | fin : ℚ → NPFloat
  | inf : NPFloat
  | ninf : NPFloat
  | nan : NPFloat
deriving DecidableEq

/-- Whether an `NPFloat` is an ordinary finite value. -/
def NPFloat.isFinite : NPFloat → Bool
  | .fin _ => true
  | _ => false

/-- Float-semantics model of `wer_change` (source line 65).  numpy evaluates
`np.sum(data[:, 1] - data[:, 0]) / np.sum(data[:, 2])` in IEEE arithmetic:
when the denominator is `0.0` the division emits a `RuntimeWarning` and
returns `inf`, `-inf` or `nan` according to the numerator's sign; no
exception is raised.  Sums are modelled exactly (the special-value outcome at
a zero denominator does not depend on rounding). -/
def wer_changeF (data : List Row) : NPFloat :=
  let num := (data.map (fun r => r.wer_b - r.edit_wer_a)).sum
  let den := (data.map (fun r => r.num_words)).sum
  if den ≠ 0 then .fin (num / den)
  else if 0 < num then .inf
  else if num < 0 then .ninf
  else .nan

/-- The divisor `len(wer_change) - 1` of `standard_error` (source line 68),
exposed as its own definition because one claim is about it being zero. -/
def std_err_denom (wer_change_list : List ℚ) : ℚ :=
  (wer_change_list.length : ℚ) - 1

/-- Model of `standard_error` (source lines 67-69):
`sqrt( sum((x_i - mean)^2) / (len - 1) )`, with `np.sqrt` passed in as an
explicit function (see the header). -/
def standard_error (sqrt : ℚ → ℚ) (wer_change_list : List ℚ)
    (wer_change_mean : ℚ) : ℚ :=
  sqrt (((wer_change_list.map (fun x => (x - wer_change_mean) ^ 2)).sum) /
    std_err_denom wer_change_list)

/-- Model of `np.mean` on a 1-D array: sum divided by length. -/
def np_mean (ws : List ℚ) : ℚ := ws.sum / (ws.length : ℚ)

/-- Model of `random_sample` (source lines 57-62): draw `num_samples` indices uniformly
in `[0, data.length)` with replacement and return the selected rows.  The
random draw is the oracle `g` reduced modulo the population size;
`np.random.randint(0, 0, ...)` on an empty population raises `ValueError`. -/
def random_sample (data : List Row) (num_samples : ℕ) (g : ℕ → ℕ) :
    Except String (List Row) :=
  if data.length = 0 then
    .error "ValueError: randint low is not below high"
  else
    .ok ((List.range num_samples).map
      (fun i => data.getD (g i % data.length) default))

/-- Runs an `Except`-valued body once per element of a list of iteration
indices, collecting the results in order; this is the common shape of the two
bootstrap loops (source lines 73-79 and 85-94). -/
def exceptMapList {α : Type} (f : ℕ → Except String α) :
    List ℕ → Except String (List α)
  | [] => .ok []
  | t :: ts => do
    let x ← f t
    let xs ← exceptMapList f ts
    pure (x :: xs)

/-- Model of `bootstap_sampling` (source lines 71-81): `total_batch` times, pooled-
resample `num_samples_per_batch` rows and record `wer_change` of the sample.
Iteration `t` consumes the oracle slice `g t`. -/
def bootstap_sampling (total_batch : ℕ) (data : List Row)
    (num_samples_per_batch : ℕ) (g : ℕ → ℕ → ℕ) : Except String (List ℚ) :=
  exceptMapList
    (fun t => (random_sample data num_samples_per_batch (g t)).map wer_change)
    (List.range total_batch)

/-- One iteration of the block-stratified loop (source lines 86-90): draw
`num_samples_per_block` rows from every block independently (block `j` uses
the oracle slice `g j`) and concatenate the block samples (`np.vstack`).
`np.vstack` of an empty list raises `ValueError`. -/
def block_iteration_sample (data : Dataset) (num_samples_per_block : ℕ)
    (g : ℕ → ℕ → ℕ) : Except String (List Row) :=
  if data.length = 0 then
    .error "ValueError: vstack needs at least one array"
  else
    (exceptMapList
      (fun j => random_sample (data.getD j default).2 num_samples_per_block (g j))
      (List.range data.length)).map List.flatten

/-- Model of `bootstap_sampling_block` (source lines 83-96): `total_batch` times, build
one combined block-stratified sample and record `wer_change` of it. -/
def bootstap_sampling_block (total_batch : ℕ) (data : Dataset)
    (num_samples_per_block : ℕ) (g : ℕ → ℕ → ℕ → ℕ) :
    Except String (List ℚ) :=
  exceptMapList
    (fun t => (block_iteration_sample data num_samples_per_block (g t)).map wer_change)
    (List.range total_batch)

/-! ## Percentile model

Source line 138 is
`ci_low, ci_high = np.percentile(change_in_wer_arr, [(1.0-interval)*100], interval*100)`.
The third positional parameter of `np.percentile` is `axis`.  numpy requires
an integer axis (`operator.index`); the source passes the Python float
`interval*100`, so the real call raises `TypeError` unconditionally.  `ℚ`
cannot record Python's int/float distinction, so the model below is
charitable: it accepts an axis whose value is `0` or `-1` (the two integers
valid for a 1-D array) and rejects anything else.  Under the validated
constraint `confidence_level < 1` the passed axis `50*(1-confidence_level)`
is strictly positive, so every reachable call fails in the model exactly as
it does in numpy. -/

/-- Insert into a sorted list of rationals. -/
def insertSorted (x : ℚ) : List ℚ → List ℚ
  | [] => [x]
  | y :: ys => if x ≤ y then x :: y :: ys else y :: insertSorted x ys

/-- Sort a list of rationals ascending (insertion sort). -/
def sortQ (l : List ℚ) : List ℚ := l.foldr insertSorted []

/-- numpy's default linear-interpolation percentile of a 1-D array:
position `p/100 * (n-1)` in the sorted data, interpolating between the two
neighbouring order statistics. -/
def percentile_linear (a : List ℚ) (p : ℚ) : ℚ :=
  let s := sortQ a
  let n := s.length
  if n = 0 then 0
  else
    let idx : ℚ := p / 100 * ((n : ℚ) - 1)
    let lo : ℤ := ⌊idx⌋
    let frac : ℚ := idx - (lo : ℚ)
    let xlo := s.getD lo.toNat 0
    let xhi := if lo.toNat + 1 < n then s.getD (lo.toNat + 1) 0 else s.getD (n - 1) 0
    xlo + frac * (xhi - xlo)

/-- Model of `np.percentile(a, q, axis)` as called on source line 138 (see the section
header: a non-integer axis is a `TypeError`, and for the 1-D array here the
only integer axes numpy would accept are `0` and `-1`). -/
def np_percentile (a : List ℚ) (q : List ℚ) (axis : ℚ) :
    Except String (List ℚ) :=
  if axis = 0 ∨ axis = -1 then .ok (q.map (percentile_linear a))
  else .error "TypeError: np.percentile axis must be an integer"

/-- Python tuple unpacking `ci_low, ci_high = xs` of source line 138: succeeds
only when the right-hand side has exactly two entries. -/
def unpack2 (xs : List ℚ) : Except String (ℚ × ℚ) :=
  match xs with
  | [a, b] => .ok (a, b)
  | _ => .error "ValueError: cannot unpack into two names"

/-- Model of `self.z_scores` (source lines 20-24): the dict of supported confidence
levels and their z-scores, as an association list of exact rationals. -/
def z_scores : List (ℚ × ℚ) :=
  [(9/10, 1645/1000), (19/20, 196/100), (99/100, 2576/1000)]

/-- Dict lookup `self.z_scores[confidence_level]` / membership
`confidence_level in self.z_scores`. -/
def z_lookup (confidence_level : ℚ) : Option ℚ :=
  (z_scores.find? (fun p => p.1 == confidence_level)).map Prod.snd

/-- Model of `WER_DiffCI` (source lines 142-158): the immutable result bundle, fields
listed in the order the constructor stores them. -/
structure WER_DiffCI where
  ci_low : ℚ
  ci_high : ℚ
  std_err : ℚ
  wer_diff_bootstrap : ℚ
  wer_diff_absolute : Option ℚ
  confidence_level : ℚ
deriving DecidableEq

/-- Model of the constructor (source line 143) with its exact positional
parameter list — note that the second parameter is named `ci_high` and the
third `ci_low`, the reverse of the order the call site on line 140 computes
them in. -/
def WER_DiffCI_init (wer_diff_bootstrap ci_high ci_low std_err
    confidence_level : ℚ) (wer_diff_absolute : Option ℚ) : WER_DiffCI :=
  { ci_low := ci_low
    ci_high := ci_high
    std_err := std_err
    wer_diff_bootstrap := wer_diff_bootstrap
    wer_diff_absolute := wer_diff_absolute
    confidence_level := confidence_level }

/-- Model of `WER_DiffCI.is_significant` (source lines 160-161):
`(self.ci_low < 0) and (self.ci_high < 0)`. -/
def is_significant (r : WER_DiffCI) : Bool :=
  (r.ci_low < 0) && (r.ci_high < 0)

/-- Source lines 118-126: the resampling stage of `compute_significance`.
Blockwise mode runs the block driver on the dict; pooled mode flattens the
dict's blocks in order (`np.vstack` / the single block — for a non-empty dict
both equal the concatenation; an empty dict raises `IndexError` at
`data_expanded[0]`) and runs the pooled driver.  The `Option.getD 0` on the
sample sizes is only reached after validation has ruled out `none`. -/
def resample_distribution (total_batch : ℕ) (data : Dataset)
    (g : ℕ → ℕ → ℕ → ℕ) (num_samples_per_batch num_samples_per_block : Option ℕ)
    (use_blockwise_bootstrap : Bool) : Except String (List ℚ) :=
  if use_blockwise_bootstrap then
    bootstap_sampling_block total_batch data (num_samples_per_block.getD 0) g
  else if data.length = 0 then
    .error "IndexError: list index out of range"
  else
    bootstap_sampling total_batch ((data.map Prod.snd).flatten)
      (num_samples_per_batch.getD 0) (fun t => g t 0)

/-- Source lines 128-140: from the sampling distribution to the returned
`WER_DiffCI`.  Gaussian mode computes
`ci_low, ci_high = mean + z*se, mean - z*se` and hands them positionally to
the constructor (whose second parameter is `ci_high`); percentile mode makes
the `np.percentile` call of line 138 followed by the 2-tuple unpacking. -/
def ci_from_distribution (sqrt : ℚ → ℚ) (use_gaussian_appr : Bool)
    (confidence_level : ℚ) (change_in_wer_arr : List ℚ)
    (absolute_wer_diff : Option ℚ) : Except String WER_DiffCI :=
  let wer_diff_bootstrap := np_mean change_in_wer_arr
  let std_err_bootstrap :=
    standard_error sqrt change_in_wer_arr wer_diff_bootstrap
  if use_gaussian_appr then
    let z_score := (z_lookup confidence_level).getD 0
    let ci_low := wer_diff_bootstrap + z_score * std_err_bootstrap
    let ci_high := wer_diff_bootstrap - z_score * std_err_bootstrap
    .ok (WER_DiffCI_init wer_diff_bootstrap ci_low ci_high std_err_bootstrap
      confidence_level absolute_wer_diff)
  else
    let interval := (1 - confidence_level) / 2
    match np_percentile change_in_wer_arr [(1 - interval) * 100]
        (interval * 100) with
    | .error e => .error e
    | .ok ps =>
      match unpack2 ps with
      | .error e => .error e
      | .ok p =>
        .ok (WER_DiffCI_init wer_diff_bootstrap p.1 p.2 std_err_bootstrap
          confidence_level absolute_wer_diff)

/-- Model of `compute_significance` (source lines 98-140).  The four leading `if`s are
the `assert` statements of lines 108-116 in source order (a failing `assert`
raises `AssertionError` before any resampling); then the resampling stage,
the optional pooled absolute statistic of line 126, and the interval stage.
`total_batch` and `use_gaussian_appr` are instance state (`self.total_batch`,
`self.use_gaussian_appr`) passed here explicitly; `sqrt` and the random
oracle `g` are the embedding parameters described in the header. -/
def compute_significance (sqrt : ℚ → ℚ) (total_batch : ℕ)
    (use_gaussian_appr : Bool) (data : Dataset) (g : ℕ → ℕ → ℕ → ℕ)
    (num_samples_per_batch num_samples_per_block : Option ℕ)
    (confidence_level : ℚ) (use_blockwise_bootstrap : Bool) :
    Except String WER_DiffCI :=
  if ¬ confidence_level < 1 then
    .error "AssertionError: confidence_level cannot be greater than 1.0"
  else if use_blockwise_bootstrap = true ∧ num_samples_per_block = none then
    .error "AssertionError: num_samples_per_block cannot be None when use_blockwise_bootstrap=True"
  else if use_blockwise_bootstrap = false ∧ num_samples_per_batch = none then
    .error "AssertionError: num_samples_per_batch cannot be None when use_blockwise_bootstrap=False"
  else if use_gaussian_appr = true ∧ z_lookup confidence_level = none then
    .error "AssertionError: only confidence levels 0.90, 0.95 and 0.99 are supported"
  else
    match resample_distribution total_batch data g num_samples_per_batch
        num_samples_per_block use_blockwise_bootstrap with
    | .error e => .error e
    | .ok change_in_wer_arr =>
      let absolute_wer_diff : Option ℚ :=
        if use_blockwise_bootstrap then none
        else some (wer_change ((data.map Prod.snd).flatten))
      ci_from_distribution sqrt use_gaussian_appr confidence_level
        change_in_wer_arr absolute_wer_diff


/-! ## Concrete inputs and values used by the closed theorems

`rowA` is the spec's test record `(errors_a=5, wer_b=0.5, num_words=10)`;
the other rows are taken from the spec's end-to-end scenario.  The `g…`
functions are concrete random oracles (always drawing index 0), and the
`res…`/`ws…`/`sample…` values are the results of the concrete runs they are
named after, spelled out so that closed theorems can talk about them. -/

/-- The spec's test record: `errors_a = 5`, `wer_b = 0.5`, `num_words = 10`. -/
def rowA : Row := ⟨5, 1/2, 10⟩

/-- Scenario record `(3, 0.4, 10)`. -/
def rowB : Row := ⟨3, 2/5, 10⟩

/-- Scenario record `(2, 0.1, 10)`. -/
def rowC : Row := ⟨2, 1/10, 10⟩

/-- A concrete random oracle for the three-argument drivers: every draw is 0. -/
def gZero3 : ℕ → ℕ → ℕ → ℕ := fun _ _ _ => 0

/-- A concrete random oracle for the two-argument drivers: every draw is 0. -/
def gZero2 : ℕ → ℕ → ℕ := fun _ _ => 0

/-- One-block dataset holding only `rowA`. -/
def dataA : Dataset := [("default", [rowA])]

/-- Two-block dataset: `default` holds `rowA`, `b1` holds `rowB` and `rowC`. -/
def dataABC : Dataset := [("default", [rowA]), ("b1", [rowB, rowC])]

/-- Result of the Gaussian pooled run on `dataA` with `total_batch = 2`,
`num_samples_per_batch = 1`, oracle `gZero3`, confidence `0.95`. -/
def resGaussA : WER_DiffCI := ⟨-9/20, -9/20, 0, -9/20, some (-9/20), 19/20⟩

/-- Result of the Gaussian pooled run on `dataABC` with `total_batch = 1`,
`num_samples_per_batch = 2`, oracle `gZero3`, confidence `0.95`. -/
def resGaussABC : WER_DiffCI := ⟨-9/20, -9/20, 0, -9/20, some (-3/10), 19/20⟩

/-- A result record with both interval bounds strictly positive. -/
def resPos : WER_DiffCI := ⟨1, 2, 0, 0, none, 19/20⟩

/-- Sampling distribution of `bootstap_sampling 2 [rowA] 1 gZero2`. -/
def wsPooledA : List ℚ := [-9/20, -9/20]

/-- Sampling distribution of `bootstap_sampling_block 1 dataABC 5 gZero3`. -/
def wsBlockABC : List ℚ := [-71/200]

/-- The combined sample built by `block_iteration_sample dataABC 5 gZero2`:
five draws from each of the two blocks. -/
def sampleBlockABC : List Row := List.replicate 5 rowA ++ List.replicate 5 rowB

/-- Whether an `Except` result is a value rather than a raised error. -/
def exceptIsOk {α : Type} : Except String α → Bool
  | .ok _ => true
  | .error _ => false

/-! ## Helper lemmas -/

theorem exceptMapList_nil {α : Type} (f : ℕ → Except String α) :
    exceptMapList f [] = .ok [] := rfl

theorem exceptMapList_cons {α : Type} (f : ℕ → Except String α) (t : ℕ)
    (ts : List ℕ) :
    exceptMapList f (t :: ts) =
      (f t).bind (fun x => (exceptMapList f ts).bind (fun xs => .ok (x :: xs))) :=
  rfl

theorem exceptMapList_ok_facts {α : Type} (f : ℕ → Except String α) :
    ∀ (ts : List ℕ) (ws : List α), exceptMapList f ts = .ok ws →
      ws.length = ts.length ∧
      ∀ i, i < ts.length → ∃ y, f (ts.getD i 0) = .ok y ∧ ∀ d, ws.getD i d = y := by
  intro ts
  induction ts with
  | nil =>
    intro ws h
    rw [exceptMapList_nil] at h
    cases h
    exact ⟨rfl, fun i hi => absurd hi (by simp)⟩
  | cons t ts ih =>
    intro ws h
    rw [exceptMapList_cons] at h
    cases hft : f t with
    | error e => rw [hft] at h; exact absurd h (by simp [Except.bind])
    | ok x =>
      rw [hft] at h
      cases hrec : exceptMapList f ts with
      | error e => rw [hrec] at h; exact absurd h (by simp [Except.bind])
      | ok xs =>
        rw [hrec] at h
        simp only [Except.bind] at h
        cases h
        obtain ⟨hlen, helem⟩ := ih xs hrec
        refine ⟨by simp [hlen], ?_⟩
        intro i hi
        cases i with
        | zero => exact ⟨x, by simpa using hft, fun d => by simp⟩
        | succ n =>
          obtain ⟨y, hy1, hy2⟩ := helem n (by simpa using hi)
          exact ⟨y, by simpa using hy1, fun d => by simpa using hy2 d⟩

theorem exceptMapList_ok_mem {α : Type} (f : ℕ → Except String α) :
    ∀ (ts : List ℕ) (ws : List α), exceptMapList f ts = .ok ws →
      ∀ w ∈ ws, ∃ t ∈ ts, f t = .ok w := by
  intro ts
  induction ts with
  | nil =>
    intro ws h
    rw [exceptMapList_nil] at h
    cases h
    simp
  | cons t ts ih =>
    intro ws h
    rw [exceptMapList_cons] at h
    cases hft : f t with
    | error e => rw [hft] at h; exact absurd h (by simp [Except.bind])
    | ok x =>
      rw [hft] at h
      cases hrec : exceptMapList f ts with
      | error e => rw [hrec] at h; exact absurd h (by simp [Except.bind])
      | ok xs =>
        rw [hrec] at h
        simp only [Except.bind] at h
        cases h
        intro w hw
        rcases List.mem_cons.mp hw with hw | hw
        · exact ⟨t, by simp, by rw [hft, hw]⟩
        · obtain ⟨u, hu1, hu2⟩ := ih xs hrec w hw
          exact ⟨u, by simp [hu1], hu2⟩

theorem exceptMapList_total {α : Type} (f : ℕ → Except String α)
    (hf : ∀ t, ∃ y, f t = .ok y) :
    ∀ ts : List ℕ, ∃ ws, exceptMapList f ts = .ok ws := by
  intro ts
  induction ts with
  | nil => exact ⟨[], rfl⟩
  | cons t ts ih =>
    obtain ⟨y, hy⟩ := hf t
    obtain ⟨ws, hws⟩ := ih
    exact ⟨y :: ws, by rw [exceptMapList_cons, hy, hws]; rfl⟩

theorem range_getD (n t : ℕ) (h : t < n) : (List.range n).getD t 0 = t := by
  rw [List.getD_eq_getElem _ _ (by simpa using h)]
  simp

theorem random_sample_of_ne (data : List Row) (hd : data ≠ []) (num : ℕ)
    (g : ℕ → ℕ) :
    random_sample data num g =
      .ok ((List.range num).map (fun i => data.getD (g i % data.length) default)) := by
  unfold random_sample
  rw [if_neg (by simpa [List.length_eq_zero] using hd)]

theorem random_sample_ok_length (data : List Row) (num : ℕ) (g : ℕ → ℕ)
    (s : List Row) (h : random_sample data num g = .ok s) : s.length = num := by
  unfold random_sample at h
  by_cases hd : data.length = 0
  · rw [if_pos hd] at h; exact absurd h (by simp)
  · rw [if_neg hd] at h
    cases h
    simp

theorem except_map_ok {α β : Type} (E : Except String α) (f : α → β) (y : β)
    (h : E.map f = .ok y) : ∃ s, E = .ok s ∧ y = f s := by
  cases E with
  | error e => exact absurd h (by simp [Except.map])
  | ok s => exact ⟨s, rfl, by simpa [Except.map] using h.symm⟩

theorem flatten_length_const {α : Type} (L : List (List α)) (m : ℕ)
    (h : ∀ l ∈ L, l.length = m) : L.flatten.length = m * L.length := by
  induction L with
  | nil => simp
  | cons x L ih =>
    rw [List.flatten_cons, List.length_append, h x (List.mem_cons_self x L),
      ih (fun l hl => h l (List.mem_cons_of_mem x hl)), List.length_cons]
    ring

theorem variance_arg_nonneg (ws : List ℚ) (m : ℚ) :
    0 ≤ ((ws.map (fun x => (x - m) ^ 2)).sum) / std_err_denom ws := by
  rcases ws with _ | ⟨w, ws⟩
  · simp
  · apply div_nonneg
    · apply List.sum_nonneg
      intro x hx
      simp only [List.mem_map] at hx
      obtain ⟨y, -, rfl⟩ := hx
      positivity
    · unfold std_err_denom
      simp only [List.length_cons]
      have h1 : (1 : ℚ) ≤ ((ws.length + 1 : ℕ) : ℚ) := by exact_mod_cast Nat.succ_le_succ (Nat.zero_le _)
      linarith

theorem z_lookup_cases (c z : ℚ) (h : z_lookup c = some z) :
    z = 1645/1000 ∨ z = 196/100 ∨ z = 2576/1000 := by
  unfold z_lookup at h
  cases hf : z_scores.find? (fun p => p.1 == c) with
  | none => rw [hf] at h; cases h
  | some pr =>
    rw [hf] at h
    have hm := List.mem_of_find?_eq_some hf
    simp only [Option.map_some'] at h
    cases h
    unfold z_scores at hm
    simp only [List.mem_cons, List.not_mem_nil, or_false] at hm
    rcases hm with h1 | h1 | h1 <;> simp [h1]

theorem z_lookup_getD_nonneg (c : ℚ) : 0 ≤ (z_lookup c).getD 0 := by
  cases h : z_lookup c with
  | none => simp
  | some z =>
    rcases z_lookup_cases c z h with h1 | h1 | h1 <;> subst h1 <;> norm_num

theorem np_percentile_error (a q : List ℚ) (axis : ℚ) (h0 : axis ≠ 0)
    (h1 : axis ≠ -1) :
    np_percentile a q axis = .error "TypeError: np.percentile axis must be an integer" := by
  unfold np_percentile
  rw [if_neg]
  rintro (h | h)
  · exact h0 h
  · exact h1 h

theorem percentile_axis_pos (c : ℚ) (hc : c < 1) : 0 < (1 - c) / 2 * 100 := by
  have h : (1 - c) / 2 * 100 = 50 * (1 - c) := by ring
  rw [h]
  have h1 : 0 < 1 - c := by linarith
  positivity

theorem ci_from_distribution_abs (sqrt : ℚ → ℚ) (gauss : Bool) (c : ℚ)
    (arr : List ℚ) (abs : Option ℚ) (r : WER_DiffCI)
    (h : ci_from_distribution sqrt gauss c arr abs = .ok r) :
    r.wer_diff_absolute = abs := by
  unfold ci_from_distribution at h
  cases gauss with
  | true =>
    simp only [if_pos] at h
    cases h
    rfl
  | false =>
    simp only [Bool.false_eq_true, if_false] at h
    cases hp : np_percentile arr [(1 - (1 - c) / 2) * 100] ((1 - c) / 2 * 100) with
    | error e => rw [hp] at h; exact absurd h (by simp)
    | ok ps =>
      simp only [hp] at h
      cases hu : unpack2 ps with
      | error e => simp only [hu] at h; exact absurd h (by simp)
      | ok p =>
        simp only [hu] at h
        cases h
        rfl

theorem ci_from_distribution_order (sqrt : ℚ → ℚ)
    (hs : ∀ x, 0 ≤ x → 0 ≤ sqrt x) (gauss : Bool) (c : ℚ) (hc : c < 1)
    (arr : List ℚ) (abs : Option ℚ) (r : WER_DiffCI)
    (h : ci_from_distribution sqrt gauss c arr abs = .ok r) :
    r.ci_low ≤ r.ci_high := by
  unfold ci_from_distribution at h
  cases gauss with
  | false =>
    simp only [Bool.false_eq_true, if_false] at h
    have hpos := percentile_axis_pos c hc
    rw [np_percentile_error arr _ _ (ne_of_gt hpos) (by linarith)] at h
    exact absurd h (by simp)
  | true =>
    simp only [if_pos] at h
    cases h
    have hz : 0 ≤ (z_lookup c).getD 0 := z_lookup_getD_nonneg c
    have hse : 0 ≤ standard_error sqrt arr (np_mean arr) := by
      unfold standard_error
      exact hs _ (variance_arg_nonneg arr (np_mean arr))
    show np_mean arr - (z_lookup c).getD 0 * standard_error sqrt arr (np_mean arr) ≤
      np_mean arr + (z_lookup c).getD 0 * standard_error sqrt arr (np_mean arr)
    nlinarith [mul_nonneg hz hse]

theorem ci_from_distribution_gauss_ok (sqrt : ℚ → ℚ) (c : ℚ) (arr : List ℚ)
    (abs : Option ℚ) :
    ∃ r, ci_from_distribution sqrt true c arr abs = .ok r :=
  ⟨_, rfl⟩

theorem compute_significance_ok_elim (sqrt : ℚ → ℚ) (tb : ℕ) (gauss : Bool)
    (data : Dataset) (g : ℕ → ℕ → ℕ → ℕ) (nb nblk : Option ℕ) (c : ℚ)
    (bw : Bool) (r : WER_DiffCI)
    (h : compute_significance sqrt tb gauss data g nb nblk c bw = .ok r) :
    c < 1 ∧ ∃ arr, resample_distribution tb data g nb nblk bw = .ok arr ∧
      ci_from_distribution sqrt gauss c arr
        (if bw then none else some (wer_change ((data.map Prod.snd).flatten))) = .ok r := by
  unfold compute_significance at h
  by_cases h1 : ¬ c < 1
  · rw [if_pos h1] at h; exact absurd h (by simp)
  rw [if_neg h1] at h
  push_neg at h1
  by_cases h2 : bw = true ∧ nblk = none
  · rw [if_pos h2] at h; exact absurd h (by simp)
  rw [if_neg h2] at h
  by_cases h3 : bw = false ∧ nb = none
  · rw [if_pos h3] at h; exact absurd h (by simp)
  rw [if_neg h3] at h
  by_cases h4 : gauss = true ∧ z_lookup c = none
  · rw [if_pos h4] at h; exact absurd h (by simp)
  rw [if_neg h4] at h
  cases hr : resample_distribution tb data g nb nblk bw with
  | error e => rw [hr] at h; exact absurd h (by simp)
  | ok arr =>
    rw [hr] at h
    exact ⟨h1, arr, rfl, h⟩

theorem bootstap_sampling_total (data : List Row) (hd : data ≠ []) (tb k : ℕ)
    (g : ℕ → ℕ → ℕ) :
    ∃ ws, bootstap_sampling tb data k g = .ok ws ∧ ws.length = tb := by
  have hf : ∀ t, ∃ y, (random_sample data k (g t)).map wer_change = .ok y := by
    intro t
    rw [random_sample_of_ne data hd k (g t)]
    exact ⟨_, rfl⟩
  obtain ⟨ws, hws⟩ := exceptMapList_total _ hf (List.range tb)
  refine ⟨ws, hws, ?_⟩
  have := (exceptMapList_ok_facts _ _ _ hws).1
  simpa using this

/-! ## The claims -/

/-- C1: the claim states that `wer_change` re-weights model B's per-record WER
by the record's word count, `(Σ wer_b_i*num_words_i - Σ errors_a_i) / Σ num_words_i`,
and that it returns `0` on the single record `(errors_a=5, wer_b=0.5,
num_words=10)`.  The code does not re-weight: line 65 sums the raw `wer_b`
column, so on that record it returns `(0.5 - 5)/10 = -9/20 ≠ 0`.  This theorem
evaluates the embedded code at the claim's own test input. -/
theorem C1_wer_change_not_reweighted :
    wer_change [{ edit_wer_a := 5, wer_b := 1/2, num_words := 10 }] = -9/20 ∧
    wer_change [{ edit_wer_a := 5, wer_b := 1/2, num_words := 10 }] ≠ 0 := by
  have h : wer_change [{ edit_wer_a := 5, wer_b := 1/2, num_words := 10 }] = -9/20 := by
    with_unfolding_all rfl
  refine ⟨h, ?_⟩
  rw [h]
  norm_num

/-- C2: the claim states that in empirical-percentile mode the returned
interval bounds are the `α` and `1-α` percentiles of the sampling
distribution.  In the code, line 138 passes a one-element percentile list and
the float `interval*100` as `np.percentile`'s positional `axis` argument, so
every percentile-mode run raises instead of returning percentiles.  This
theorem evaluates a fully valid percentile-mode run (one record,
`total_batch = 2`, `num_samples_per_batch = 1`, confidence `0.95`) and shows
it errors out in the percentile call. -/
theorem C2_percentile_branch_raises :
    compute_significance id 2 false dataA gZero3 (some 1) none (19/20) false =
      .error "TypeError: np.percentile axis must be an integer" := by
  with_unfolding_all rfl

/-- C3: every `WER_DiffCI` actually returned by `compute_significance` has
`ci_low ≤ ci_high`, whichever estimation strategy was configured.  The
Gaussian branch computes `ci_low, ci_high = mean + z*se, mean - z*se` but
passes them positionally into a constructor whose parameter order is
`(ci_high, ci_low)`, so the two swaps cancel and the stored `ci_low` is
`mean - z*se ≤ mean + z*se`; the percentile branch never returns a result. -/
theorem C3_interval_ordering (sqrt : ℚ → ℚ) (hs : ∀ x, 0 ≤ x → 0 ≤ sqrt x)
    (total_batch : ℕ) (use_gaussian_appr : Bool) (data : Dataset)
    (g : ℕ → ℕ → ℕ → ℕ) (num_samples_per_batch num_samples_per_block : Option ℕ)
    (confidence_level : ℚ) (use_blockwise_bootstrap : Bool) (r : WER_DiffCI)
    (h : compute_significance sqrt total_batch use_gaussian_appr data g
      num_samples_per_batch num_samples_per_block confidence_level
      use_blockwise_bootstrap = .ok r) :
    r.ci_low ≤ r.ci_high := by
  obtain ⟨hc, arr, -, hci⟩ := compute_significance_ok_elim _ _ _ _ _ _ _ _ _ _ h
  exact ci_from_distribution_order sqrt hs _ _ hc arr _ r hci

/-- Witness for C3: the Gaussian run on `dataA` with `total_batch = 2`
returns `resGaussA`, and the theorem yields its interval ordering. -/
theorem C3_interval_ordering_witness : resGaussA.ci_low ≤ resGaussA.ci_high :=
  C3_interval_ordering id (fun _ hx => hx) 2 true dataA gZero3 (some 1) none
    (19/20) false resGaussA (by with_unfolding_all rfl)

/-- C4: `is_significant` is true exactly when both stored bounds are strictly
negative; in particular an interval with both bounds strictly positive (which
also excludes zero) is reported as not significant. -/
theorem C4_is_significant_iff (r : WER_DiffCI) :
    (is_significant r = true ↔ (r.ci_low < 0 ∧ r.ci_high < 0)) ∧
    (0 < r.ci_low → 0 < r.ci_high → is_significant r = false) := by
  constructor
  · simp [is_significant]
  · intro h1 h2
    have h1' : ¬ r.ci_low < 0 := by linarith
    simp [is_significant, h1']

/-- Witness for C4: the all-positive interval `resPos` is not significant. -/
theorem C4_is_significant_iff_witness : is_significant resPos = false :=
  (C4_is_significant_iff resPos).2 (by norm_num [resPos]) (by norm_num [resPos])

/-- C5: each of the four misconfigurations is rejected by the `assert` block
of lines 108-116 with a configuration error, uniformly in the dataset and in
the random oracle (so before any resampling can happen):
`confidence_level ≥ 1`; blockwise mode without a per-block size; pooled mode
without a per-batch size; and Gaussian mode with an unsupported confidence
level (stated with the earlier checks passing, which pins down the exact
message; if an earlier check also fails, its own configuration error fires
first). -/
theorem C5_failfast_validation (sqrt : ℚ → ℚ) (tb : ℕ) (gauss : Bool)
    (data : Dataset) (g : ℕ → ℕ → ℕ → ℕ) (nb nblk : Option ℕ) (c : ℚ)
    (bw : Bool) :
    (1 ≤ c → compute_significance sqrt tb gauss data g nb nblk c bw =
      .error "AssertionError: confidence_level cannot be greater than 1.0") ∧
    (c < 1 → bw = true → nblk = none →
      compute_significance sqrt tb gauss data g nb nblk c bw =
        .error "AssertionError: num_samples_per_block cannot be None when use_blockwise_bootstrap=True") ∧
    (c < 1 → bw = false → nb = none →
      compute_significance sqrt tb gauss data g nb nblk c bw =
        .error "AssertionError: num_samples_per_batch cannot be None when use_blockwise_bootstrap=False") ∧
    (c < 1 → gauss = true → z_lookup c = none → (bw = true → nblk ≠ none) →
      (bw = false → nb ≠ none) →
      compute_significance sqrt tb gauss data g nb nblk c bw =
        .error "AssertionError: only confidence levels 0.90, 0.95 and 0.99 are supported") := by
  refine ⟨?_, ?_, ?_, ?_⟩
  · intro hc
    unfold compute_significance
    rw [if_pos (not_lt.mpr hc)]
  · intro hc hbw hnblk
    unfold compute_significance
    rw [if_neg (not_not_intro hc), if_pos ⟨hbw, hnblk⟩]
  · intro hc hbw hnb
    unfold compute_significance
    rw [if_neg (not_not_intro hc), if_neg (by simp [hbw]), if_pos ⟨hbw, hnb⟩]
  · intro hc hgauss hz hblk hbatch
    unfold compute_significance
    rw [if_neg (not_not_intro hc),
      if_neg (fun hx => hblk hx.1 hx.2),
      if_neg (fun hx => hbatch hx.1 hx.2),
      if_pos ⟨hgauss, hz⟩]

/-- Witness for C5: each of the four misconfigurations at a concrete input. -/
theorem C5_failfast_validation_witness :
    (compute_significance id 5 false dataA gZero3 (some 1) none (3/2) false =
      .error "AssertionError: confidence_level cannot be greater than 1.0") ∧
    (compute_significance id 5 false dataA gZero3 (some 1) none (1/2) true =
      .error "AssertionError: num_samples_per_block cannot be None when use_blockwise_bootstrap=True") ∧
    (compute_significance id 5 false dataA gZero3 none none (1/2) false =
      .error "AssertionError: num_samples_per_batch cannot be None when use_blockwise_bootstrap=False") ∧
    (compute_significance id 5 true dataA gZero3 (some 1) none (1/2) false =
      .error "AssertionError: only confidence levels 0.90, 0.95 and 0.99 are supported") :=
  ⟨(C5_failfast_validation id 5 false dataA gZero3 (some 1) none (3/2) false).1
      (by norm_num),
   (C5_failfast_validation id 5 false dataA gZero3 (some 1) none (1/2) true).2.1
      (by norm_num) rfl rfl,
   (C5_failfast_validation id 5 false dataA gZero3 none none (1/2) false).2.2.1
      (by norm_num) rfl rfl,
   (C5_failfast_validation id 5 true dataA gZero3 (some 1) none (1/2) false).2.2.2
      (by norm_num) rfl (by with_unfolding_all rfl) (fun h => absurd h (by simp))
      (fun _ => by simp)⟩

/-- C6: each bootstrap driver, when it returns, returns the ordered sampling
distribution of length exactly `total_batch`, whose `t`-th entry is the
statistic `wer_change` of the `t`-th iteration's own fresh resample (drawn
from the oracle slice of iteration `t`). -/
theorem C6_driver_length_and_elements :
    (∀ (total_batch : ℕ) (data : List Row) (k : ℕ) (g : ℕ → ℕ → ℕ)
        (ws : List ℚ), bootstap_sampling total_batch data k g = .ok ws →
        ws.length = total_batch ∧
        ∀ t, t < total_batch → ∃ s, random_sample data k (g t) = .ok s ∧
          ws.getD t 0 = wer_change s) ∧
    (∀ (total_batch : ℕ) (data : Dataset) (m : ℕ) (g : ℕ → ℕ → ℕ → ℕ)
        (ws : List ℚ), bootstap_sampling_block total_batch data m g = .ok ws →
        ws.length = total_batch ∧
        ∀ t, t < total_batch → ∃ s, block_iteration_sample data m (g t) = .ok s ∧
          ws.getD t 0 = wer_change s) := by
  constructor
  · intro tb data k g ws h
    unfold bootstap_sampling at h
    obtain ⟨hlen, helem⟩ := exceptMapList_ok_facts _ _ _ h
    refine ⟨by simpa using hlen, ?_⟩
    intro t ht
    obtain ⟨y, hy1, hy2⟩ := helem t (by simpa using ht)
    rw [range_getD tb t ht] at hy1
    obtain ⟨s, hs1, hs2⟩ := except_map_ok _ _ _ hy1
    exact ⟨s, hs1, by rw [hy2 0, hs2]⟩
  · intro tb data m g ws h
    unfold bootstap_sampling_block at h
    obtain ⟨hlen, helem⟩ := exceptMapList_ok_facts _ _ _ h
    refine ⟨by simpa using hlen, ?_⟩
    intro t ht
    obtain ⟨y, hy1, hy2⟩ := helem t (by simpa using ht)
    rw [range_getD tb t ht] at hy1
    obtain ⟨s, hs1, hs2⟩ := except_map_ok _ _ _ hy1
    exact ⟨s, hs1, by rw [hy2 0, hs2]⟩

/-- Witness for C6: the concrete pooled run (`total_batch = 2`) produces a
distribution of length 2, the concrete block run (`total_batch = 1`) one of
length 1. -/
theorem C6_driver_length_and_elements_witness :
    wsPooledA.length = 2 ∧ wsBlockABC.length = 1 :=
  ⟨(C6_driver_length_and_elements.1 2 [rowA] 1 gZero2 wsPooledA
      (by with_unfolding_all rfl)).1,
   (C6_driver_length_and_elements.2 1 dataABC 5 gZero3 wsBlockABC
      (by with_unfolding_all rfl)).1⟩

/-- C7: in block-stratified mode with per-block sample size `m`, every
iteration of a returning run draws exactly `m` rows with replacement from
each block independently (no relation between `m` and the block sizes is
needed beyond non-emptiness) and concatenates them, so the combined sample
has exactly `m * (number of blocks)` rows. -/
theorem C7_block_sample_sizes (total_batch : ℕ) (data : Dataset) (m : ℕ)
    (g : ℕ → ℕ → ℕ → ℕ) (ws : List ℚ)
    (h : bootstap_sampling_block total_batch data m g = .ok ws) :
    ∀ t, t < total_batch →
      ∃ s, block_iteration_sample data m (g t) = .ok s ∧
        s.length = m * data.length ∧
        ∀ j, j < data.length →
          ∃ sj, random_sample (data.getD j default).2 m (g t j) = .ok sj ∧
            sj.length = m := by
  intro t ht
  unfold bootstap_sampling_block at h
  obtain ⟨-, helem⟩ := exceptMapList_ok_facts _ _ _ h
  obtain ⟨y, hy1, -⟩ := helem t (by simpa using ht)
  rw [range_getD total_batch t ht] at hy1
  obtain ⟨s, hs1, -⟩ := except_map_ok _ _ _ hy1
  refine ⟨s, hs1, ?_, ?_⟩
  · unfold block_iteration_sample at hs1
    by_cases hd : data.length = 0
    · rw [if_pos hd] at hs1; exact absurd hs1 (by simp)
    · rw [if_neg hd] at hs1
      obtain ⟨L, hL1, hL2⟩ := except_map_ok _ _ _ hs1
      obtain ⟨hLlen, -⟩ := exceptMapList_ok_facts _ _ _ hL1
      have hmem := exceptMapList_ok_mem _ _ _ hL1
      rw [hL2]
      rw [flatten_length_const L m ?_]
      · rw [hLlen]; simp
      · intro l hl
        obtain ⟨j, -, hj2⟩ := hmem l hl
        exact random_sample_ok_length _ _ _ _ hj2
  · intro j hj
    unfold block_iteration_sample at hs1
    by_cases hd : data.length = 0
    · rw [if_pos hd] at hs1; exact absurd hs1 (by simp)
    · rw [if_neg hd] at hs1
      obtain ⟨L, hL1, -⟩ := except_map_ok _ _ _ hs1
      obtain ⟨-, hLelem⟩ := exceptMapList_ok_facts _ _ _ hL1
      obtain ⟨y2, hy21, -⟩ := hLelem j (by simpa using hj)
      rw [range_getD data.length j hj] at hy21
      exact ⟨y2, hy21, random_sample_ok_length _ _ _ _ hy21⟩

/-- Witness for C7: the concrete block run on the two-block dataset with
`m = 5` builds a combined sample of `5 * 2 = 10` rows. -/
theorem C7_block_sample_sizes_witness :
    sampleBlockABC.length = 5 * dataABC.length := by
  obtain ⟨s, hs, hlen, -⟩ := C7_block_sample_sizes 1 dataABC 5 gZero3 wsBlockABC
    (by with_unfolding_all rfl) 0 (by norm_num)
  have h2 : block_iteration_sample dataABC 5 (gZero3 0) = .ok sampleBlockABC := by
    with_unfolding_all rfl
  rw [h2] at hs
  rw [Except.ok.inj hs]
  exact hlen

/-- C8, as stated, is false: on a sample with pooled word count zero the code
does not raise; the IEEE division returns a value.  At the concrete record
`(errors_a=5, wer_b=0.5, num_words=0)` the statistic computation returns the
float value `-inf` (numerator `-4.5`, denominator `0.0`). -/
theorem C8_zero_words_returns_value :
    wer_changeF [{ edit_wer_a := 5, wer_b := 1/2, num_words := 0 }] =
      NPFloat.ninf := by
  with_unfolding_all rfl

/-- C8 (amended): for every sample whose pooled word count sum is zero, the
statistic computation performs a float division by zero and returns a
non-finite value (`inf`, `-inf` or `nan`) instead of raising a domain
error. -/
theorem C8_zero_words_nonfinite (data : List Row)
    (h : (data.map (fun r => r.num_words)).sum = 0) :
    (wer_changeF data).isFinite = false := by
  unfold wer_changeF
  rw [if_neg (not_not_intro h)]
  split_ifs <;> rfl

/-- Witness for C8 (amended): the zero-word record again. -/
theorem C8_zero_words_nonfinite_witness :
    NPFloat.isFinite
      (wer_changeF [{ edit_wer_a := 5, wer_b := 1/2, num_words := 0 }]) = false :=
  C8_zero_words_nonfinite [{ edit_wer_a := 5, wer_b := 1/2, num_words := 0 }]
    (by simp)

/-- C9: whenever `compute_significance` returns a result, the
`wer_diff_absolute` field is `None` in block-stratified mode and, in pooled
mode, holds the statistic of the whole flattened dataset (all blocks
concatenated in dict order, no resampling). -/
theorem C9_absolute_field (sqrt : ℚ → ℚ) (total_batch : ℕ)
    (use_gaussian_appr : Bool) (data : Dataset) (g : ℕ → ℕ → ℕ → ℕ)
    (num_samples_per_batch num_samples_per_block : Option ℕ)
    (confidence_level : ℚ) (use_blockwise_bootstrap : Bool) (r : WER_DiffCI)
    (h : compute_significance sqrt total_batch use_gaussian_appr data g
      num_samples_per_batch num_samples_per_block confidence_level
      use_blockwise_bootstrap = .ok r) :
    r.wer_diff_absolute =
      (if use_blockwise_bootstrap then none
       else some (wer_change ((data.map Prod.snd).flatten))) := by
  obtain ⟨-, arr, -, hci⟩ := compute_significance_ok_elim _ _ _ _ _ _ _ _ _ _ h
  exact ci_from_distribution_abs _ _ _ _ _ _ hci

/-- Witness for C9: the Gaussian pooled run on the two-block dataset stores
the flattened-dataset statistic in `wer_diff_absolute`. -/
theorem C9_absolute_field_witness :
    resGaussABC.wer_diff_absolute =
      (if (false : Bool) then none
       else some (wer_change ((dataABC.map Prod.snd).flatten))) :=
  C9_absolute_field id 1 true dataABC gZero3 (some 2) none (19/20) false
    resGaussABC (by with_unfolding_all rfl)

/-- C10: `total_batch` is never validated: with `total_batch = 1` (and any
other value) an otherwise-valid Gaussian pooled run passes every `assert` and
completes, while the sampling distribution it builds has length 1, so the
`standard_error` divisor `len - 1` is `0`: the code performs a division by
zero rather than raising a configuration error. -/
theorem C10_total_batch_not_validated (sqrt : ℚ → ℚ) (data : Dataset)
    (g : ℕ → ℕ → ℕ → ℕ) (k : ℕ)
    (hd : (data.map Prod.snd).flatten ≠ []) :
    (∃ ws, bootstap_sampling 1 ((data.map Prod.snd).flatten) k (fun t => g t 0)
        = .ok ws ∧ std_err_denom ws = 0) ∧
    (∀ total_batch, ∃ r, compute_significance sqrt total_batch true data g
        (some k) none (19/20) false = .ok r) := by
  constructor
  · obtain ⟨ws, hws, hlen⟩ :=
      bootstap_sampling_total ((data.map Prod.snd).flatten) hd 1 k (fun t => g t 0)
    refine ⟨ws, hws, ?_⟩
    unfold std_err_denom
    rw [hlen]
    norm_num
  · intro tb
    have hdata0 : ¬ data.length = 0 := by
      intro h0
      rw [List.length_eq_zero] at h0
      subst h0
      simp at hd
    obtain ⟨arr, harr, -⟩ :=
      bootstap_sampling_total ((data.map Prod.snd).flatten) hd tb k (fun t => g t 0)
    obtain ⟨r, hr⟩ := ci_from_distribution_gauss_ok sqrt (19/20) arr
      (some (wer_change ((data.map Prod.snd).flatten)))
    refine ⟨r, ?_⟩
    unfold compute_significance
    rw [if_neg (not_not_intro (by norm_num)),
      if_neg (by simp), if_neg (by simp),
      if_neg (by rintro ⟨-, hz⟩; rw [(by with_unfolding_all rfl : z_lookup (19/20) = some (49/25))] at hz; cases hz)]
    have hres : resample_distribution tb data g (some k) none false = .ok arr := by
      unfold resample_distribution
      rw [if_neg (by simp), if_neg hdata0]
      exact harr
    rw [hres]
    simpa using hr

/-- Witness for C10: the single-record dataset, `total_batch = 1`,
completes without any error. -/
theorem C10_total_batch_not_validated_witness :
    exceptIsOk (compute_significance id 1 true dataA gZero3 (some 1) none
      (19/20) false) = true := by
  obtain ⟨r, hr⟩ := (C10_total_batch_not_validated id dataA gZero3 1
    (by simp [dataA])).2 1
  rw [hr]
  rfl

end ASRStat
